import Mathlib

/-!
# Verification of the libretro-rs lifecycle bridge

A shallow embedding of the `libretro-rs` crate (files `src/lib.rs`,
`src/retro/mod.rs`) into Lean 4, together with theorems settling the
specification's claims about the Lifecycle Bridge, the Environment
Channel, the Runtime Passthrough and the game-descriptor conversion.

Modelling conventions:
* Rust `panic!` / `.unwrap()` / `.expect(..)` on an entry point is modelled
  by the entry point returning `none` (`Option` result); `some` is normal
  return.
* Raw C pointers are modelled as `Nat`, with `0` standing for the null
  pointer, plus an explicit memory map where the pointed-to bytes matter.
* C byte strings are `List Nat` (the bytes of the NUL-terminated string,
  terminator excluded).
* The `f64`/`f32` fields (`sample_rate`, `frame_rate`, `aspect_ratio`) are
  carried opaquely by the bridge (stored and copied, never computed with);
  they are modelled as `Nat` placeholders holding the bit pattern.
* The host-side callbacks are modelled as Lean functions; the bridge's
  callback slots hold `Option` of the corresponding function type exactly
  as the Rust fields hold `Option<extern fn ...>`.
-/

/-- `RetroRegion` from `src/lib.rs` (NTSC = 0, PAL = 1). -/
inductive RetroRegion where
  | NTSC
  | PAL
deriving DecidableEq, Repr

/-- `impl Into<u32> for RetroRegion` from `src/lib.rs`. -/
def RetroRegion.toU32 : RetroRegion → Nat
  | .NTSC => 0
  | .PAL => 1

/-- `RetroPixelFormat` from `src/lib.rs`. -/
inductive RetroPixelFormat where
  | RGB1555
  | XRGB8888
  | RGB565
deriving DecidableEq, Repr

/-- `impl Into<u32> for RetroPixelFormat` from `src/lib.rs`. -/
def RetroPixelFormat.toU32 : RetroPixelFormat → Nat
  | .RGB1555 => 0
  | .XRGB8888 => 1
  | .RGB565 => 2

/-- `RetroDevice` from `src/lib.rs`. -/
inductive RetroDevice where
  | None
  | Joypad
  | Mouse
  | Keyboard
  | LightGun
  | Analog
  | Pointer
deriving DecidableEq, Repr

/-- `impl From<u32> for RetroDevice` from `src/lib.rs`: panics (`none`)
on an unrecognized device number. -/
def RetroDevice.fromU32 : Nat → Option RetroDevice
  | 0 => some .None
  | 1 => some .Joypad
  | 2 => some .Mouse
  | 3 => some .Keyboard
  | 4 => some .LightGun
  | 5 => some .Analog
  | 6 => some .Pointer
  | _ => none

/-- `RetroAudioInfo` from `src/lib.rs`; `sample_rate: f64` carried opaquely. -/
structure RetroAudioInfo where
  sample_rate : Nat
deriving DecidableEq, Repr

/-- `RetroVideoInfo` from `src/lib.rs`; float fields carried opaquely
(`aspect` stands for the `aspect_ratio: f32` field). -/
structure RetroVideoInfo where
  frame_rate : Nat
  width : Nat
  height : Nat
  aspect : Nat
  max_width : Nat
  max_height : Nat
  pixel_format : RetroPixelFormat
deriving DecidableEq, Repr

/-- `RetroSystemAvInfo` from `src/lib.rs`. -/
structure RetroSystemAvInfo where
  audio : RetroAudioInfo
  video : RetroVideoInfo
deriving DecidableEq, Repr

/-- `RetroSystemInfo` from `src/lib.rs`. -/
structure RetroSystemInfo where
  name : String
  version : String
  valid_extensions : Option String
  block_extract : Bool
  need_full_path : Bool
deriving DecidableEq, Repr

/-- The `retro_game_geometry` C struct fields written by
`on_get_system_av_info` (`aspect` stands for `aspect_ratio: f32`). -/
structure retro_game_geometry where
  base_width : Nat
  base_height : Nat
  max_width : Nat
  max_height : Nat
  aspect : Nat
deriving DecidableEq, Repr

/-- The `retro_system_timing` C struct fields written by
`on_get_system_av_info`. -/
structure retro_system_timing where
  fps : Nat
  sample_rate : Nat
deriving DecidableEq, Repr

/-- The `retro_system_av_info` C struct written by `on_get_system_av_info`. -/
structure retro_system_av_info where
  geometry : retro_game_geometry
  timing : retro_system_timing
deriving DecidableEq, Repr

/-- Is `b` a UTF-8 continuation byte (`0x80..=0xBF`)? -/
def utf8Cont (b : Nat) : Bool :=
  0x80 ≤ b && b ≤ 0xBF

/-- UTF-8 validity of a byte sequence, as checked by Rust's
`str::from_utf8` (used by `CStr::to_str`): rejects overlong encodings,
surrogates and code points above U+10FFFF. -/
def validUtf8 : List Nat → Bool
  | [] => true
  | b :: bs =>
    if b ≤ 0x7F then validUtf8 bs
    else if 0xC2 ≤ b && b ≤ 0xDF then
      match bs with
      | c1 :: bs1 => utf8Cont c1 && validUtf8 bs1
      | [] => false
    else if b = 0xE0 then
      match bs with
      | c1 :: c2 :: bs2 => (0xA0 ≤ c1 && c1 ≤ 0xBF) && utf8Cont c2 && validUtf8 bs2
      | _ => false
    else if b = 0xED then
      match bs with
      | c1 :: c2 :: bs2 => (0x80 ≤ c1 && c1 ≤ 0x9F) && utf8Cont c2 && validUtf8 bs2
      | _ => false
    else if 0xE1 ≤ b && b ≤ 0xEF then
      match bs with
      | c1 :: c2 :: bs2 => utf8Cont c1 && utf8Cont c2 && validUtf8 bs2
      | _ => false
    else if b = 0xF0 then
      match bs with
      | c1 :: c2 :: c3 :: bs3 =>
        (0x90 ≤ c1 && c1 ≤ 0xBF) && utf8Cont c2 && utf8Cont c3 && validUtf8 bs3
      | _ => false
    else if 0xF1 ≤ b && b ≤ 0xF3 then
      match bs with
      | c1 :: c2 :: c3 :: bs3 =>
        utf8Cont c1 && utf8Cont c2 && utf8Cont c3 && validUtf8 bs3
      | _ => false
    else if b = 0xF4 then
      match bs with
      | c1 :: c2 :: c3 :: bs3 =>
        (0x80 ≤ c1 && c1 ≤ 0x8F) && utf8Cont c2 && utf8Cont c3 && validUtf8 bs3
      | _ => false
    else false

/-- `CStr::to_str().ok()`: the bytes, if valid UTF-8, else `none`. -/
def cstrToStrOk (bs : List Nat) : Option (List Nat) :=
  if validUtf8 bs then some bs else none

/-- The `retro_game_info` wire record: `path`/`data`/`meta` are nullable
pointers, modelled as `Option` of the pointed-to bytes (`none` = null);
`data` holds the bytes accessible at the data pointer, of which
`size` are taken by the conversion. -/
structure RetroGameInfo where
  path : Option (List Nat)
  data : Option (List Nat)
  size : Nat
  meta : Option (List Nat)
deriving DecidableEq, Repr

/-- `RetroGame` from `src/lib.rs` (the tagged union of game shapes). -/
inductive RetroGame where
  | None (meta : Option (List Nat))
  | Data (meta : Option (List Nat)) (data : List Nat)
  | Path (meta : Option (List Nat)) (path : List Nat)
deriving DecidableEq, Repr

/-- `impl From<&retro_game_info> for RetroGame` from `src/lib.rs`.
`meta` uses `CStr::to_str().ok()` (invalid UTF-8 → `None`, not fatal);
the `path` branch uses `.unwrap()` and panics (`none`) on invalid UTF-8;
the data slice is `from_raw_parts(data, size)`, i.e. the first `size`
bytes at the data pointer. -/
def retroGameFrom (g : RetroGameInfo) : Option RetroGame :=
  let meta := match g.meta with
    | none => none
    | some bs => cstrToStrOk bs
  if g.path = none ∧ g.data = none then some (.None meta)
  else if g.data ≠ none then
    some (.Data meta ((g.data.getD []).take g.size))
  else
    match g.path with
    | some pb => (cstrToStrOk pb).map (fun p => RetroGame.Path meta p)
    | none => none

/-- `Game` from `src/retro/mod.rs`: `meta` is a raw `&CStr` (no UTF-8
check) and `path` uses `CUtf8::from_c_str_unchecked` (no check, no
panic), so the conversion is total. -/
inductive Game where
  | None (meta : Option (List Nat))
  | Data (meta : Option (List Nat)) (data : List Nat)
  | Path (meta : Option (List Nat)) (path : List Nat)
deriving DecidableEq, Repr

/-- `impl From<&retro_game_info> for Game` from `src/retro/mod.rs`:
matches on `(path.is_null(), data.is_null())`. -/
def gameFrom (g : RetroGameInfo) : Game :=
  let meta := g.meta
  match g.path, g.data with
  | none, none => .None meta
  | _, some d => .Data meta (d.take g.size)
  | some p, none => .Path meta p

/-- The raw `retro_environment_t` callback: receives `(key, payload slot)`
and returns `(bool, new slot value)`. The slot holds a pointer (`0` =
null); the host may overwrite it during the call. -/
def EnvCb : Type := Nat → Nat → Bool × Nat

/-- `RetroEnvironment::get` from `src/lib.rs`: the slot starts as a null
pointer; the result is present only when the callback returns `true`
and the slot holds a non-null pointer afterwards. -/
def envGet (env : EnvCb) (key : Nat) : Option Nat :=
  let r := env key 0
  if r.1 = true ∧ r.2 ≠ 0 then some r.2 else none

/-- `RetroEnvironment::get_str` from `src/lib.rs`:
`self.get(key)?` then `CStr::from_ptr(s).to_str().ok()`. `mem` maps an
address to the bytes of the NUL-terminated string stored there. There is
no panic path: failure at every stage is `none`. -/
def envGetStr (env : EnvCb) (mem : Nat → List Nat) (key : Nat) : Option (List Nat) :=
  match envGet env key with
  | none => none
  | some p => cstrToStrOk (mem p)

/-- `retro_audio_sample_t`: `(left, right) → ()`. -/
def AudioSampleCb : Type := Int → Int → Unit

/-- `retro_audio_sample_batch_t`: `(data, frames) → frames consumed`.
The first argument is the sample buffer the pointer references. -/
def AudioSampleBatchCb : Type := List Int → Nat → Nat

/-- `retro_input_poll_t`. -/
def InputPollCb : Type := Unit → Unit

/-- `retro_input_state_t`: `(port, device, index, id) → i16`. -/
def InputStateCb : Type := Nat → Nat → Nat → Nat → Int

/-- `retro_video_refresh_t`: `(data, width, height, pitch) → ()`. -/
def VideoRefreshCb : Type := List Nat → Nat → Nat → Nat → Unit

/-- `RetroRuntime` from `src/lib.rs`: the four frame callbacks, already
unwrapped (construction fails if any is absent). -/
structure RetroRuntime where
  audio_sample : AudioSampleCb
  audio_sample_batch : AudioSampleBatchCb
  input_state : InputStateCb
  video_refresh : VideoRefreshCb

/-- `RetroRuntime::new` from `src/lib.rs`: `none` if any slot is absent. -/
def RetroRuntime.new (a : Option AudioSampleCb) (b : Option AudioSampleBatchCb)
    (i : Option InputStateCb) (v : Option VideoRefreshCb) : Option RetroRuntime :=
  match a, b, i, v with
  | some a, some b, some i, some v => some ⟨a, b, i, v⟩
  | _, _, _, _ => none

/-- `RetroRuntime::upload_audio_frame` from `src/lib.rs`: forwards the
buffer and `frame.len() / 2` (integer division) to the audio-batch
callback, for every buffer, odd lengths included. -/
def RetroRuntime.upload_audio_frame (rt : RetroRuntime) (frame : List Int) : Nat :=
  rt.audio_sample_batch frame (frame.length / 2)

/-- `RetroLoadGameResult` from `src/lib.rs`. -/
inductive RetroLoadGameResult where
  | Failure
  | Success (region : RetroRegion) (audio : RetroAudioInfo) (video : RetroVideoInfo)
deriving DecidableEq, Repr

/-- The `RetroCore` trait from `src/lib.rs`, as a record of the core's
behavior over its own state type `sigma`. The fields with defaults mirror
the trait's default method bodies; `support_no_game` mirrors the
`SUPPORT_NO_GAME` associated constant (default `false`). Methods taking
`&mut self` return a new state; `&self` methods do not. The `env`
parameter of each trait method is omitted: the core's own use of the
environment channel is arbitrary user code, out of scope of the bridge. -/
structure CoreModel (sigma : Type) where
  support_no_game : Bool := false
  init : sigma
  get_system_info : RetroSystemInfo
  set_controller_port_device : sigma → Nat → RetroDevice → sigma := fun s _ _ => s
  reset : sigma → sigma
  run : sigma → sigma
  serialize_size : sigma → Nat := fun _ => 0
  serialize : sigma → Bool := fun _ => false
  unserialize : sigma → sigma × Bool := fun s => (s, false)
  cheat_reset : sigma → sigma := fun s => s
  cheat_set : sigma → Nat → Bool → sigma := fun s _ _ => s
  load_game : sigma → Option RetroGame → sigma × RetroLoadGameResult
  load_game_special : sigma → Nat → Game → sigma × Bool := fun s _ _ => (s, false)
  unload_game : sigma → sigma := fun s => s
  get_memory_data : sigma → Nat → sigma × Nat := fun s _ => (s, 0)
  get_memory_size : sigma → Nat → Nat := fun _ _ => 0

/-- The fields of `RetroInstance<T>` from `src/lib.rs`. -/
structure InstState (sigma : Type) where
  system : Option sigma
  system_info : Option RetroSystemInfo
  system_region : Option RetroRegion
  system_av_info : Option RetroSystemAvInfo
  audio_sample : Option AudioSampleCb
  audio_sample_batch : Option AudioSampleBatchCb
  environment : Option EnvCb
  input_poll : Option InputPollCb
  input_state : Option InputStateCb
  video_refresh : Option VideoRefreshCb

/-- The freshly constructed instance: every slot empty. -/
def initState {sigma : Type} : InstState sigma :=
  ⟨none, none, none, none, none, none, none, none, none, none⟩

/-- A call the bridge makes on the environment channel (observable
protocol event). -/
inductive EnvEvent where
  | setSupportNoGame (b : Bool)
  | setPixelFormat (f : RetroPixelFormat)
deriving DecidableEq, Repr

/-- A frame-driving action performed during `on_run`, in order. -/
inductive RunEvent where
  | inputPoll
  | coreRun
deriving DecidableEq, Repr

/-- Observable output of one entry-point call: the environment commands
the bridge itself sent, the run-time actions in order, and the numeric
return value if the entry point has one (`bool` encoded as 0/1). -/
structure Output where
  env_events : List EnvEvent
  run_events : List RunEvent
  ret : Option Nat
deriving DecidableEq, Repr

/-- `RetroInstance::on_get_system_info`: constructs the static system
info and caches it so the C pointers stay valid. Never panics. -/
def onGetSystemInfo {sigma} (M : CoreModel sigma) (st : InstState sigma) :
    InstState sigma × Output :=
  ({ st with system_info := some M.get_system_info }, ⟨[], [], none⟩)

/-- `RetroInstance::on_get_system_av_info`: `expect`s the cached av-info
(panic = `none` if absent), then unwraps the environment channel to send
`SET_PIXEL_FORMAT`, then writes the `retro_system_av_info` out-param from
the cache. The instance state is unchanged (`&self` method). -/
def onGetSystemAvInfo {sigma} (st : InstState sigma) :
    Option (retro_system_av_info × Output) :=
  match st.system_av_info with
  | none => none
  | some av =>
    match st.environment with
    | none => none
    | some _ =>
      some (⟨⟨av.video.width, av.video.height, av.video.max_width,
              av.video.max_height, av.video.aspect⟩,
             ⟨av.video.frame_rate, av.audio.sample_rate⟩⟩,
            ⟨[.setPixelFormat av.video.pixel_format], [], none⟩)

/-- `RetroInstance::on_init`: unwraps the environment channel, then
constructs the core (`T::init`). -/
def onInit {sigma} (M : CoreModel sigma) (st : InstState sigma) :
    Option (InstState sigma × Output) :=
  match st.environment with
  | none => none
  | some _ => some ({ st with system := some M.init }, ⟨[], [], none⟩)

/-- `RetroInstance::on_deinit`: clears the core, the two audio slots, the
environment channel, input poll, input state and video refresh. The
`system_info`, `system_region` and `system_av_info` fields are not
touched. Never panics. -/
def onDeinit {sigma} (st : InstState sigma) : InstState sigma :=
  { st with
    system := none
    audio_sample := none
    audio_sample_batch := none
    environment := none
    input_poll := none
    input_state := none
    video_refresh := none }

/-- `RetroInstance::on_set_environment`: stores the callback, then
unwraps it (panic if the host passed null) and sends
`SET_SUPPORT_NO_GAME` with the core's static capability flag. -/
def onSetEnvironment {sigma} (M : CoreModel sigma) (st : InstState sigma)
    (cb : Option EnvCb) : Option (InstState sigma × Output) :=
  match cb with
  | none => none
  | some c =>
    some ({ st with environment := some c },
          ⟨[.setSupportNoGame M.support_no_game], [], none⟩)

/-- `RetroInstance::on_set_controller_port_device`: unwraps the
environment and the core, then converts the device number (panic on an
unrecognized value) and forwards. -/
def onSetControllerPortDevice {sigma} (M : CoreModel sigma) (st : InstState sigma)
    (port device : Nat) : Option (InstState sigma × Output) :=
  match st.environment with
  | none => none
  | some _ =>
    match st.system with
    | none => none
    | some s =>
      match RetroDevice.fromU32 device with
      | none => none
      | some d =>
        some ({ st with system := some (M.set_controller_port_device s port d) },
              ⟨[], [], none⟩)

/-- `RetroInstance::on_reset`. -/
def onReset {sigma} (M : CoreModel sigma) (st : InstState sigma) :
    Option (InstState sigma × Output) :=
  match st.environment with
  | none => none
  | some _ =>
    match st.system with
    | none => none
    | some s => some ({ st with system := some (M.reset s) }, ⟨[], [], none⟩)

/-- `RetroInstance::on_run`: unwraps `input_poll` and invokes it, unwraps
the environment, constructs the `RetroRuntime` from the four slots and
unwraps it, then calls the core's `run` once. The run-event trace records
the input poll and the core run, in order. -/
def onRun {sigma} (M : CoreModel sigma) (st : InstState sigma) :
    Option (InstState sigma × Output) :=
  match st.input_poll with
  | none => none
  | some _ =>
    match st.environment with
    | none => none
    | some _ =>
      match RetroRuntime.new st.audio_sample st.audio_sample_batch
          st.input_state st.video_refresh with
      | none => none
      | some _ =>
        match st.system with
        | none => none
        | some s =>
          some ({ st with system := some (M.run s) },
                ⟨[], [.inputPoll, .coreRun], none⟩)

/-- `RetroInstance::on_serialize_size`. -/
def onSerializeSize {sigma} (M : CoreModel sigma) (st : InstState sigma) :
    Option (InstState sigma × Output) :=
  match st.environment with
  | none => none
  | some _ =>
    match st.system with
    | none => none
    | some s => some (st, ⟨[], [], some (M.serialize_size s)⟩)

/-- `RetroInstance::on_serialize` (the buffer pointer is opaque). -/
def onSerialize {sigma} (M : CoreModel sigma) (st : InstState sigma) :
    Option (InstState sigma × Output) :=
  match st.environment with
  | none => none
  | some _ =>
    match st.system with
    | none => none
    | some s => some (st, ⟨[], [], some (if M.serialize s then 1 else 0)⟩)

/-- `RetroInstance::on_unserialize`. -/
def onUnserialize {sigma} (M : CoreModel sigma) (st : InstState sigma) :
    Option (InstState sigma × Output) :=
  match st.environment with
  | none => none
  | some _ =>
    match st.system with
    | none => none
    | some s =>
      let r := M.unserialize s
      some ({ st with system := some r.1 }, ⟨[], [], some (if r.2 then 1 else 0)⟩)

/-- `RetroInstance::on_cheat_reset`. -/
def onCheatReset {sigma} (M : CoreModel sigma) (st : InstState sigma) :
    Option (InstState sigma × Output) :=
  match st.environment with
  | none => none
  | some _ =>
    match st.system with
    | none => none
    | some s => some ({ st with system := some (M.cheat_reset s) }, ⟨[], [], none⟩)

/-- `RetroInstance::on_cheat_set` (the code pointer is forwarded raw,
unconverted, in `src/lib.rs`). -/
def onCheatSet {sigma} (M : CoreModel sigma) (st : InstState sigma)
    (index : Nat) (enabled : Bool) : Option (InstState sigma × Output) :=
  match st.environment with
  | none => none
  | some _ =>
    match st.system with
    | none => none
    | some s =>
      some ({ st with system := some (M.cheat_set s index enabled) }, ⟨[], [], none⟩)

/-- `game.map(Into::into)` in `on_load_game`: converts the optional wire
record; a panic inside the conversion propagates. -/
def convertGameArg : Option RetroGameInfo → Option (Option RetroGame)
  | none => some none
  | some gi => (retroGameFrom gi).map some

/-- `RetroInstance::on_load_game`: unwraps environment and core, converts
the game descriptor, calls the core's `load_game`. On `Success` it caches
the region and the av-info and returns `true` (ret 1); on `Failure` it
clears the cached av-info only and returns `false` (ret 0) — the cached
region is left as it was. -/
def onLoadGame {sigma} (M : CoreModel sigma) (st : InstState sigma)
    (g : Option RetroGameInfo) : Option (InstState sigma × Output) :=
  match st.environment with
  | none => none
  | some _ =>
    match st.system with
    | none => none
    | some s =>
      match convertGameArg g with
      | none => none
      | some g' =>
        match M.load_game s g' with
        | (s', .Failure) =>
          some ({ st with system := some s', system_av_info := none },
                ⟨[], [], some 0⟩)
        | (s', .Success r a v) =>
          some ({ st with
                  system := some s'
                  system_region := some r
                  system_av_info := some ⟨a, v⟩ },
                ⟨[], [], some 1⟩)

/-- `RetroInstance::on_load_game_special`: converts with the `Game`
(total) conversion of the same wire record and forwards; caches nothing. -/
def onLoadGameSpecial {sigma} (M : CoreModel sigma) (st : InstState sigma)
    (game_type : Nat) (gi : RetroGameInfo) : Option (InstState sigma × Output) :=
  match st.environment with
  | none => none
  | some _ =>
    match st.system with
    | none => none
    | some s =>
      let r := M.load_game_special s game_type (gameFrom gi)
      some ({ st with system := some r.1 }, ⟨[], [], some (if r.2 then 1 else 0)⟩)

/-- `RetroInstance::on_unload_game`: unwraps environment and core and
calls the core's `unload_game`. The cached region and av-info are not
touched. -/
def onUnloadGame {sigma} (M : CoreModel sigma) (st : InstState sigma) :
    Option (InstState sigma × Output) :=
  match st.environment with
  | none => none
  | some _ =>
    match st.system with
    | none => none
    | some s => some ({ st with system := some (M.unload_game s) }, ⟨[], [], none⟩)

/-- `RetroInstance::on_get_region`: `self.system_region.unwrap().into()` —
panics (`none`) exactly when the cached region is absent. -/
def onGetRegion {sigma} (st : InstState sigma) : Option Nat :=
  st.system_region.map RetroRegion.toU32

/-- `RetroInstance::on_get_memory_data`. -/
def onGetMemoryData {sigma} (M : CoreModel sigma) (st : InstState sigma)
    (id : Nat) : Option (InstState sigma × Output) :=
  match st.environment with
  | none => none
  | some _ =>
    match st.system with
    | none => none
    | some s =>
      let r := M.get_memory_data s id
      some ({ st with system := some r.1 }, ⟨[], [], some r.2⟩)

/-- `RetroInstance::on_get_memory_size`. -/
def onGetMemorySize {sigma} (M : CoreModel sigma) (st : InstState sigma)
    (id : Nat) : Option (InstState sigma × Output) :=
  match st.environment with
  | none => none
  | some _ =>
    match st.system with
    | none => none
    | some s => some (st, ⟨[], [], some (M.get_memory_size s id)⟩)

/-- One ABI entry-point call, with its host-supplied arguments (opaque
buffer pointers omitted). -/
inductive RCall where
  | getSystemInfo
  | getSystemAvInfo
  | init
  | deinit
  | setEnvironment (cb : Option EnvCb)
  | setAudioSample (cb : Option AudioSampleCb)
  | setAudioSampleBatch (cb : Option AudioSampleBatchCb)
  | setInputPoll (cb : Option InputPollCb)
  | setInputState (cb : Option InputStateCb)
  | setVideoRefresh (cb : Option VideoRefreshCb)
  | setControllerPortDevice (port device : Nat)
  | reset
  | run
  | serializeSize
  | serialize
  | unserialize
  | cheatReset
  | cheatSet (index : Nat) (enabled : Bool)
  | loadGame (g : Option RetroGameInfo)
  | loadGameSpecial (game_type : Nat) (gi : RetroGameInfo)
  | unloadGame
  | getRegion
  | getMemoryData (id : Nat)
  | getMemorySize (id : Nat)

/-- Dispatch of one ABI entry point to its `RetroInstance` method;
`none` is a panic. The five callback setters and `deinit` never panic. -/
def stepCall {sigma} (M : CoreModel sigma) (st : InstState sigma) :
    RCall → Option (InstState sigma × Output)
  | .getSystemInfo => some (onGetSystemInfo M st)
  | .getSystemAvInfo => (onGetSystemAvInfo st).map (fun r => (st, r.2))
  | .init => onInit M st
  | .deinit => some (onDeinit st, ⟨[], [], none⟩)
  | .setEnvironment cb => onSetEnvironment M st cb
  | .setAudioSample cb => some ({ st with audio_sample := cb }, ⟨[], [], none⟩)
  | .setAudioSampleBatch cb =>
      some ({ st with audio_sample_batch := cb }, ⟨[], [], none⟩)
  | .setInputPoll cb => some ({ st with input_poll := cb }, ⟨[], [], none⟩)
  | .setInputState cb => some ({ st with input_state := cb }, ⟨[], [], none⟩)
  | .setVideoRefresh cb => some ({ st with video_refresh := cb }, ⟨[], [], none⟩)
  | .setControllerPortDevice port device => onSetControllerPortDevice M st port device
  | .reset => onReset M st
  | .run => onRun M st
  | .serializeSize => onSerializeSize M st
  | .serialize => onSerialize M st
  | .unserialize => onUnserialize M st
  | .cheatReset => onCheatReset M st
  | .cheatSet index enabled => onCheatSet M st index enabled
  | .loadGame g => onLoadGame M st g
  | .loadGameSpecial t gi => onLoadGameSpecial M st t gi
  | .unloadGame => onUnloadGame M st
  | .getRegion => (onGetRegion st).map (fun r => (st, ⟨[], [], some r⟩))
  | .getMemoryData id => onGetMemoryData M st id
  | .getMemorySize id => onGetMemorySize M st id

/-- Executes a sequence of entry-point calls, threading the instance
state and a ghost flag recording the spec's "GameLoaded window": the flag
becomes `true` on a `load_game` call that returned success and `false` on
`unload_game` / `deinit`. A panic anywhere aborts the whole sequence. -/
def runCalls {sigma} (M : CoreModel sigma) :
    List RCall → InstState sigma → Bool → Option (InstState sigma × Bool)
  | [], st, w => some (st, w)
  | c :: cs, st, w =>
    match stepCall M st c with
    | none => none
    | some (st', out) =>
      let w' := match c with
        | .loadGame _ => out.ret == some 1
        | .unloadGame => false
        | .deinit => false
        | _ => w
      runCalls M cs st' w'

/-- A trivially-permissive host environment callback: accepts every
request and leaves the payload slot untouched. -/
def envHost0 : EnvCb := fun _ slot => (true, slot)

/-- A concrete `RetroVideoInfo` used by the demonstration cores. -/
def vid0 : RetroVideoInfo := ⟨60, 320, 240, 1, 320, 240, .RGB1555⟩

/-- A concrete `RetroAudioInfo` used by the demonstration cores. -/
def aud0 : RetroAudioInfo := ⟨44100⟩

/-- A concrete `RetroSystemInfo` used by the demonstration cores. -/
def info0 : RetroSystemInfo := ⟨"demo", "1.0", none, false, false⟩

/-- A stateless demonstration core whose `load_game` always succeeds
with NTSC region; `SUPPORT_NO_GAME` is `true`. -/
def M0 : CoreModel Unit where
  support_no_game := true
  init := ()
  get_system_info := info0
  reset := fun s => s
  run := fun s => s
  load_game := fun s _ => (s, .Success .NTSC aud0 vid0)

/-- A demonstration core whose `load_game` succeeds exactly when a game
descriptor is passed, and fails on the no-game call. -/
def M1 : CoreModel Unit where
  init := ()
  get_system_info := info0
  reset := fun s => s
  run := fun s => s
  load_game := fun s g =>
    match g with
    | some _ => (s, .Success .NTSC aud0 vid0)
    | none => (s, .Failure)

/-- C6: `upload_audio_frame` follows one deterministic policy for every
sample buffer, odd lengths included: it never rejects, it forwards
`frame.len() / 2` (floor division) frames to the audio-batch callback,
and twice the forwarded count never exceeds the buffer length (an odd
buffer silently drops its trailing sample). -/
theorem upload_audio_frame_policy (rt : RetroRuntime) (frame : List Int) :
    rt.upload_audio_frame frame = rt.audio_sample_batch frame (frame.length / 2)
    ∧ 2 * (frame.length / 2) ≤ frame.length
    ∧ 2 * (frame.length / 2) = frame.length - frame.length % 2 := by
  have h := Nat.div_add_mod frame.length 2
  exact ⟨rfl, by omega, by omega⟩

/-- C9: converting the game-descriptor wire record with data pointer to
`[0x01, 0x02, 0x03, 0x04]`, `size = 4` and null path yields exactly the
`Data` variant with that 4-byte slice and no path, under both the
`RetroGame` conversion of `src/lib.rs` and the `Game` conversion of
`src/retro/mod.rs`. -/
theorem game_data_wire_conversion :
    retroGameFrom ⟨none, some [1, 2, 3, 4], 4, none⟩
        = some (.Data none [1, 2, 3, 4])
    ∧ gameFrom ⟨none, some [1, 2, 3, 4], 4, none⟩ = .Data none [1, 2, 3, 4] := by
  exact ⟨by decide, rfl⟩

/-- C7: an environment `get` whose host callback returns `false` or
leaves a null pointer in the payload slot yields `none`; and a present
result always carries the non-null pointer the host wrote. -/
theorem env_get_null_safe (env : EnvCb) (key : Nat) :
    (((env key 0).1 = false ∨ (env key 0).2 = 0) → envGet env key = none)
    ∧ (∀ p, envGet env key = some p →
        p ≠ 0 ∧ (env key 0).1 = true ∧ (env key 0).2 = p) := by
  constructor
  · rintro (h | h) <;> simp [envGet, h]
  · intro p hp
    by_cases h : (env key 0).1 = true ∧ (env key 0).2 ≠ 0
    · simp only [envGet, if_pos h] at hp
      injection hp with hp
      exact ⟨hp ▸ h.2, h.1, hp⟩
    · simp only [envGet, if_neg h] at hp
      cases hp

/-- Witness for C7 at a host that declines the request. -/
theorem env_get_null_safe_witness :
    envGet (fun _ slot => (false, slot)) 31 = none :=
  (env_get_null_safe (fun _ slot => (false, slot)) 31).1 (Or.inl rfl)

/-- C8: the string `get` yields `none` (and cannot fail fatally — every
failure path of `get_str` is `None`) when the host-supplied bytes are not
valid UTF-8; moreover every present result is valid UTF-8. -/
theorem env_get_str_utf8_guard (env : EnvCb) (mem : Nat → List Nat) (key : Nat) :
    (∀ p, envGet env key = some p → validUtf8 (mem p) = false →
        envGetStr env mem key = none)
    ∧ (∀ s, envGetStr env mem key = some s → validUtf8 s = true) := by
  constructor
  · intro p hp hv
    simp [envGetStr, hp, cstrToStrOk, hv]
  · intro s hs
    unfold envGetStr at hs
    split at hs
    · cases hs
    · unfold cstrToStrOk at hs
      split at hs
      · rename_i hv
        injection hs with hs
        subst hs
        exact hv
      · cases hs

/-- Witness for C8 at a host that writes pointer 1 where memory holds the
invalid byte sequence `[0xFF]`. -/
theorem env_get_str_utf8_guard_witness :
    envGetStr (fun _ _ => (true, 1)) (fun _ => [0xFF]) 9 = none :=
  (env_get_str_utf8_guard (fun _ _ => (true, 1)) (fun _ => [0xFF]) 9).1 1 rfl
    (by decide)

/-- C10: `deinit` clears exactly the core, the environment channel and
the five callback slots; the cached system-info, region and av-info
survive, so `get_region` after `deinit` still returns the stale cached
region of the last successful `load_game` instead of failing fatally. -/
theorem deinit_clears_only_core_env_callbacks {sigma} (st : InstState sigma) :
    ((onDeinit st).system = none
      ∧ (onDeinit st).audio_sample = none
      ∧ (onDeinit st).audio_sample_batch = none
      ∧ (onDeinit st).environment = none
      ∧ (onDeinit st).input_poll = none
      ∧ (onDeinit st).input_state = none
      ∧ (onDeinit st).video_refresh = none
      ∧ (onDeinit st).system_info = st.system_info
      ∧ (onDeinit st).system_region = st.system_region
      ∧ (onDeinit st).system_av_info = st.system_av_info)
    ∧ (∀ r, st.system_region = some r →
        onGetRegion (onDeinit st) = some r.toU32) := by
  refine ⟨⟨rfl, rfl, rfl, rfl, rfl, rfl, rfl, rfl, rfl, rfl⟩, ?_⟩
  intro r hr
  simp [onGetRegion, onDeinit, hr]

/-- Witness for C10: a state with a cached NTSC region still answers
`get_region` with 0 after `deinit`. -/
theorem deinit_clears_only_core_env_callbacks_witness :
    onGetRegion (onDeinit { initState with system_region := some .NTSC :
      InstState Unit }) = some 0 :=
  (deinit_clears_only_core_env_callbacks
    { initState with system_region := some .NTSC }).2 .NTSC rfl

/-- C1 (amended): `get_region` fails fatally exactly when the cached
region is absent, and `get_system_av_info` fails fatally exactly when the
cached av-info or the environment channel is absent — not whenever the
bridge is outside the GameLoaded window, because the caches persist
across `unload_game` and `deinit`. -/
theorem region_av_query_fatal_iff_cache_absent {sigma} (st : InstState sigma) :
    (onGetRegion st = none ↔ st.system_region = none)
    ∧ (onGetSystemAvInfo st = none ↔
        st.system_av_info = none ∨ st.environment = none) := by
  constructor
  · cases h : st.system_region <;> simp [onGetRegion, h]
  · cases h : st.system_av_info <;> cases h2 : st.environment <;>
      simp [onGetSystemAvInfo, h, h2]

/-- C4: a successful `run` performs exactly one input poll followed by
exactly one core run, fails fatally when the input-poll callback or any
of the four runtime callbacks is absent, and changes no lifecycle state
(every slot, cache and the presence of the core are preserved). -/
theorem run_polls_once_then_runs_core {sigma} (M : CoreModel sigma)
    (st : InstState sigma) :
    ((st.input_poll = none ∨ st.audio_sample = none
        ∨ st.audio_sample_batch = none ∨ st.input_state = none
        ∨ st.video_refresh = none) → onRun M st = none)
    ∧ (∀ st' out, onRun M st = some (st', out) →
        out.run_events = [.inputPoll, .coreRun]
        ∧ st'.system_info = st.system_info
        ∧ st'.system_region = st.system_region
        ∧ st'.system_av_info = st.system_av_info
        ∧ st'.audio_sample = st.audio_sample
        ∧ st'.audio_sample_batch = st.audio_sample_batch
        ∧ st'.environment = st.environment
        ∧ st'.input_poll = st.input_poll
        ∧ st'.input_state = st.input_state
        ∧ st'.video_refresh = st.video_refresh
        ∧ st'.system.isSome = st.system.isSome) := by
  constructor
  · intro h
    cases hip : st.input_poll with
    | none => simp [onRun, hip]
    | some ip =>
      cases henv : st.environment with
      | none => simp [onRun, hip, henv]
      | some e =>
        have hrt : RetroRuntime.new st.audio_sample st.audio_sample_batch
            st.input_state st.video_refresh = none := by
          cases ha : st.audio_sample <;> cases hb : st.audio_sample_batch <;>
            cases hi : st.input_state <;> cases hv : st.video_refresh <;>
            simp_all [RetroRuntime.new]
        simp [onRun, hip, henv, hrt]
  · intro st' out h
    cases hip : st.input_poll with
    | none => simp [onRun, hip] at h
    | some ip =>
      cases henv : st.environment with
      | none => simp [onRun, hip, henv] at h
      | some e =>
        cases hrt : RetroRuntime.new st.audio_sample st.audio_sample_batch
            st.input_state st.video_refresh with
        | none => simp [onRun, hip, henv, hrt] at h
        | some rt =>
          cases hsys : st.system with
          | none => simp [onRun, hip, henv, hrt, hsys] at h
          | some s =>
            simp only [onRun, hip, henv, hrt, hsys, Option.some.injEq,
              Prod.mk.injEq] at h
            obtain ⟨h1, h2⟩ := h
            subst h1
            subst h2
            simp [hsys]

/-- A fully wired instance used as the demonstration input of the `run`
theorem: core constructed, environment bound, all five callbacks set. -/
def goodSt : InstState Unit :=
  ⟨some (), none, none, none, some (fun _ _ => ()), some (fun _ _ => 0),
   some envHost0, some (fun _ => ()), some (fun _ _ _ _ => 0),
   some (fun _ _ _ _ => ())⟩

/-- The state `run` yields on `goodSt`. -/
def goodStAfter : InstState Unit := { goodSt with system := some (M0.run ()) }

/-- The observable output of a successful `run`. -/
def outRun : Output := ⟨[], [.inputPoll, .coreRun], none⟩

/-- Witness for C4: on the empty instance `run` panics (input poll
absent); on the fully wired instance it emits exactly one input poll then
one core run. -/
theorem run_polls_once_then_runs_core_witness :
    onRun M0 (initState : InstState Unit) = none
    ∧ outRun.run_events = [RunEvent.inputPoll, RunEvent.coreRun] :=
  ⟨(run_polls_once_then_runs_core M0 initState).1 (Or.inl rfl),
   ((run_polls_once_then_runs_core M0 goodSt).2 goodStAfter outRun rfl).1⟩

/-- Does this environment event carry the `SET_SUPPORT_NO_GAME` command? -/
def isSupportNoGameEvent : EnvEvent → Bool
  | .setSupportNoGame _ => true
  | .setPixelFormat _ => false

/-- Is this entry point `retro_set_environment`? -/
def isSetEnvironmentCall : RCall → Bool
  | .setEnvironment _ => true
  | _ => false

/-- C5: across every entry point and every state, the bridge sends
`SET_SUPPORT_NO_GAME` exactly on (successful) `set_environment` calls,
exactly once there, always carrying the core's static
`SUPPORT_NO_GAME` flag; every other entry point sends none. -/
theorem support_no_game_sent_only_at_set_environment {sigma}
    (M : CoreModel sigma) (st : InstState sigma) (c : RCall)
    (st' : InstState sigma) (out : Output)
    (h : stepCall M st c = some (st', out)) :
    out.env_events.filter isSupportNoGameEvent =
      if isSetEnvironmentCall c then [EnvEvent.setSupportNoGame M.support_no_game]
      else [] := by
  cases c
  case getSystemAvInfo =>
    simp only [stepCall] at h
    cases hm : onGetSystemAvInfo st with
    | none => rw [hm] at h; cases h
    | some r =>
      rw [hm, Option.map_some'] at h
      cases h
      unfold onGetSystemAvInfo at hm
      split at hm
      · cases hm
      · split at hm
        · cases hm
        · cases hm; simp [isSupportNoGameEvent, isSetEnvironmentCall]
  case getRegion =>
    simp only [stepCall] at h
    cases hm : onGetRegion st with
    | none => rw [hm] at h; cases h
    | some r =>
      rw [hm, Option.map_some'] at h
      cases h
      simp [isSupportNoGameEvent, isSetEnvironmentCall]
  all_goals
    simp only [stepCall, onGetSystemInfo, onInit, onSetEnvironment,
      onSetControllerPortDevice, onReset, onRun, onSerializeSize, onSerialize,
      onUnserialize, onCheatReset, onCheatSet, onLoadGame, onLoadGameSpecial,
      onUnloadGame, onGetMemoryData, onGetMemorySize] at h
  all_goals (repeat' split at h) <;> (try cases h) <;>
    simp [isSupportNoGameEvent, isSetEnvironmentCall]

/-- The state after a successful `set_environment(envHost0)` on a fresh
instance. -/
def stEnv : InstState Unit := { initState with environment := some envHost0 }

/-- The observable output of that `set_environment` call under `M0`. -/
def outEnv : Output := ⟨[EnvEvent.setSupportNoGame true], [], none⟩

/-- Witness for C5: the concrete `set_environment` call on a fresh
instance emits exactly one `SET_SUPPORT_NO_GAME`, carrying `M0`'s flag. -/
theorem support_no_game_sent_only_at_set_environment_witness :
    outEnv.env_events.filter isSupportNoGameEvent =
      if isSetEnvironmentCall (RCall.setEnvironment (some envHost0)) then
        [EnvEvent.setSupportNoGame M0.support_no_game]
      else [] :=
  support_no_game_sent_only_at_set_environment M0 initState
    (RCall.setEnvironment (some envHost0)) stEnv outEnv rfl

/-- The host call sequence that leaves the GameLoaded window again:
bind environment, init, load a game successfully, then unload it. -/
def c1trace : List RCall :=
  [.setEnvironment (some envHost0), .init, .loadGame none, .unloadGame]

/-- Counterexample to C1 as stated: after `c1trace` the bridge is outside
the GameLoaded window (ghost window flag `false`), yet `get_region`
returns the stale cached value `0` (NTSC) instead of failing fatally. -/
theorem region_query_after_unload_counterexample :
    (runCalls M0 c1trace initState false).map (fun p => (onGetRegion p.1, p.2))
      = some (some 0, false) := rfl

/-- The prefix that performs a successful `load_game` under `M0`. -/
def c2trace : List RCall := [.setEnvironment (some envHost0), .init, .loadGame none]

/-- Counterexample to C2 as stated: `unload_game` right after a
successful `load_game` leaves both the cached region and the cached
av-info present (`Some`), not absent. -/
theorem unload_game_retains_caches_counterexample :
    ((runCalls M0 c2trace initState false).bind
        (fun p => onUnloadGame M0 p.1)).map
        (fun q => (q.1.system_region, q.1.system_av_info))
      = some (some .NTSC, some ⟨aud0, vid0⟩) := rfl

/-- C2 (amended): `unload_game` invokes the core's unload operation and
leaves the cached region and av-info exactly as they were (it clears
nothing); the environment channel and the core instance remain present,
so `load_game` can legally be called again (it cannot panic afterwards
for any game argument whose conversion succeeds). -/
theorem unload_game_keeps_caches_allows_reload {sigma} (M : CoreModel sigma)
    (st st' : InstState sigma) (out : Output)
    (h : onUnloadGame M st = some (st', out)) :
    st'.system_region = st.system_region
    ∧ st'.system_av_info = st.system_av_info
    ∧ st'.environment = st.environment
    ∧ st'.system.isSome = true
    ∧ (∀ g, convertGameArg g ≠ none → onLoadGame M st' g ≠ none) := by
  unfold onUnloadGame at h
  cases henv : st.environment with
  | none => rw [henv] at h; cases h
  | some e =>
    rw [henv] at h
    cases hsys : st.system with
    | none => rw [hsys] at h; cases h
    | some s =>
      rw [hsys] at h
      cases h
      refine ⟨rfl, rfl, rfl, rfl, ?_⟩
      intro g hg
      cases hcg : convertGameArg g with
      | none => exact absurd hcg hg
      | some g' =>
        simp only [onLoadGame, henv, hcg]
        rcases hL : M.load_game (M.unload_game s) g' with ⟨s2, r⟩
        cases r <;> simp [hL]

/-- The instance state right after `c2trace` (environment bound, core
constructed, NTSC region and av-info cached). -/
def stLoaded : InstState Unit :=
  { (initState : InstState Unit) with
    environment := some envHost0
    system := some ()
    system_region := some .NTSC
    system_av_info := some ⟨aud0, vid0⟩ }

/-- Witness for C2 (amended), applied to the concrete post-load state. -/
theorem unload_game_keeps_caches_allows_reload_witness :
    ({ stLoaded with system := some (M0.unload_game ()) } :
        InstState Unit).system_region = stLoaded.system_region :=
  (unload_game_keeps_caches_allows_reload M0 stLoaded
    { stLoaded with system := some (M0.unload_game ()) } ⟨[], [], none⟩ rfl).1

/-- A game wire record carrying one data byte, used to drive `M1` to a
successful load. -/
def gi0 : RetroGameInfo := ⟨none, some [1], 1, none⟩

/-- Counterexample to C3 as stated: under `M1` a successful
`load_game(gi0)` followed by a failing `load_game(none)` returns failure
(ret `0`) with the cached av-info cleared but the cached region still
present — failure does not leave both caches absent. -/
theorem load_failure_keeps_region_counterexample :
    ((runCalls M1 [.setEnvironment (some envHost0), .init, .loadGame (some gi0)]
          initState false).bind
        (fun p => onLoadGame M1 p.1 none)).map
        (fun q => (q.2.ret, q.1.system_region, q.1.system_av_info))
      = some (some 0, some .NTSC, none) := rfl

/-- C3 (amended): a non-panicking `load_game` returns either success
(ret 1) or failure (ret 0); on success it populates both the cached
region and the cached av-info and on failure it clears only the cached
av-info, returning the cached region to no particular state — it is left
exactly as it was before the call (absent only if no earlier load had
succeeded). -/
theorem load_game_caching {sigma} (M : CoreModel sigma) (st : InstState sigma)
    (g : Option RetroGameInfo) (st' : InstState sigma) (out : Output)
    (h : onLoadGame M st g = some (st', out)) :
    (out.ret = some 1 ∨ out.ret = some 0)
    ∧ (out.ret = some 1 →
        st'.system_region.isSome ∧ st'.system_av_info.isSome)
    ∧ (out.ret = some 0 →
        st'.system_av_info = none ∧ st'.system_region = st.system_region) := by
  cases henv : st.environment with
  | none => simp [onLoadGame, henv] at h
  | some e =>
    cases hsys : st.system with
    | none => simp [onLoadGame, henv, hsys] at h
    | some s =>
      cases hcg : convertGameArg g with
      | none => simp [onLoadGame, henv, hsys, hcg] at h
      | some g' =>
        rcases hL : M.load_game s g' with ⟨s2, r⟩
        cases r with
        | Failure =>
          simp only [onLoadGame, henv, hsys, hcg, hL] at h
          cases h
          exact ⟨Or.inr rfl, by simp, fun _ => ⟨rfl, rfl⟩⟩
        | Success reg a v =>
          simp only [onLoadGame, henv, hsys, hcg, hL] at h
          cases h
          exact ⟨Or.inl rfl, fun _ => ⟨rfl, rfl⟩, by simp⟩

/-- The instance state after `set_environment` and `init` under `M0`. -/
def stInit : InstState Unit :=
  { (initState : InstState Unit) with
    environment := some envHost0
    system := some () }

/-- Witness for C3 (amended): the concrete successful no-game load under
`M0` populates both caches. -/
theorem load_game_caching_witness :
    (({ stInit with
        system := some ()
        system_region := some .NTSC
        system_av_info := some ⟨aud0, vid0⟩ } :
          InstState Unit).system_region.isSome
      ∧ ({ stInit with
           system := some ()
           system_region := some .NTSC
           system_av_info := some ⟨aud0, vid0⟩ } :
             InstState Unit).system_av_info.isSome) :=
  (load_game_caching M0 stInit none
      { stInit with
        system := some ()
        system_region := some .NTSC
        system_av_info := some ⟨aud0, vid0⟩ }
      ⟨[], [], some 1⟩ rfl).2.1 rfl
